import Mathlib

/-!
Verification of the kobuki_core serial driver (`kobuki.cpp`) against its
natural-language specification.

The C++ source is shallowly embedded below:
* machine integers are `ℕ`/`ℤ` with explicit reduction modulo `2^16` where
  the code relies on 16-bit wrap-around (`unsigned short` arithmetic and the
  `(short)` reinterpretation cast);
* IEEE doubles are modelled as exact rationals `ℚ`; the C `(short)` cast of a
  double truncates toward zero, embedded as `truncToZero`;
* byte buffers are `List ℕ` of byte values;
* the record pool / observer machinery is modelled by the set of header ids
  seen in a frame (`Finset ℕ`, mirroring the `std::set<unsigned char>
  sig_index`) and the list of emitted observer signals.
-/

namespace KobukiSpec

/-! ### Byte-level helpers -/

/-- Reinterpretation of the low 16 bits of an integer as a signed 16-bit
value: the semantics of the C expression `(short)(x & 0xffff)`. -/
def toSigned16 (n : ℤ) : ℤ :=
  if n % 65536 < 32768 then n % 65536 else n % 65536 - 65536

/-- Low byte of a 16-bit two's-complement word (`union_sint16.byte[0]` on the
little-endian host, `Kobuki::sendCommand`). -/
def lowByte (w : ℤ) : ℕ := (w % 65536).toNat % 256

/-- High byte of a 16-bit two's-complement word (`union_sint16.byte[1]`). -/
def highByte (w : ℤ) : ℕ := (w % 65536).toNat / 256

/-- XOR-accumulation over a byte list, mirroring the `cs ^= buffer[i]` loops
in `PacketFinder::checkSum` and `Kobuki::sendCommand`. -/
def xorBytes (l : List ℕ) : ℕ := l.foldl Nat.xor 0

/-- `PacketFinder::checkSum` (kobuki.cpp lines 29-38): XOR every byte of the
stored frame from index 2 (the length byte) through the last byte (the
checksum byte) and succeed iff the result is zero. -/
def checkSum (buffer : List ℕ) : Bool := xorBytes (buffer.drop 2) == 0

/-! ### Command encoder -/

/-- Truncation toward zero of a rational: the semantics of the C `(short)`
cast applied to a floating-point value (doubles modelled as exact
rationals). -/
def truncToZero (q : ℚ) : ℤ := if 0 ≤ q then ⌊q⌋ else -⌊-q⌋

/-- Radius computation of `Kobuki::setCommand` (kobuki.cpp lines 564-571). -/
def setCommandRadius (vx wz : ℚ) : ℤ :=
  if wz = 0 then 0
  else if vx = 0 ∧ 0 < wz then 1
  else if vx = 0 ∧ wz < 0 then -1
  else truncToZero (vx * 1000 / wz)

/-- Speed computation of `Kobuki::setCommand` (kobuki.cpp line 573). -/
def setCommandSpeed (bias vx wz : ℚ) : ℤ :=
  truncToZero (1000 * max (vx + bias * wz / 2) (vx - bias * wz / 2))

/-- The wheelbase constant assigned in `Kobuki::init` (`bias = 0.298`). -/
def biasValue : ℚ := 298 / 1000

/-- The 9-byte motion frame written by `Kobuki::sendCommand()` (kobuki.cpp
lines 576-600): `AA 55 05 01 s0 s1 r0 r1 CKS` with `s0 s1` / `r0 r1` the
little-endian bytes of `speed` / `radius`, and `CKS` the XOR of the bytes at
indices 2 through 6 only (the loop `for (int i = 2; i <= 6; i++)`). -/
def sendCommandFrame (speed radius : ℤ) : List ℕ :=
  let cmd0 : List ℕ :=
    [0xaa, 0x55, 5, 0x01, lowByte speed, highByte speed,
     lowByte radius, highByte radius, 0x00]
  let cs := xorBytes ((cmd0.drop 2).take 5)
  cmd0.take 8 ++ [cs]

/-- Truncation toward zero agrees with T-division of the reduced numerator by
the reduced denominator. -/
theorem truncToZero_eq_tdiv (q : ℚ) : truncToZero q = q.num.tdiv q.den := by
  unfold truncToZero
  split
  · next h =>
    rw [Rat.floor_def, Int.tdiv_eq_ediv (Rat.num_nonneg.mpr h) (Int.natCast_nonneg _)]
  · next h =>
    have h' : (0:ℚ) ≤ -q := by linarith
    rw [Rat.floor_def, Rat.num_neg_eq_neg_num, Rat.den_neg_eq_den,
      ← Int.tdiv_eq_ediv (Rat.num_neg_eq_neg_num q ▸ Rat.num_nonneg.mpr h')
        (Int.natCast_nonneg _), Int.neg_tdiv, Int.neg_neg]

/-- A zero motion request encodes to speed 0 for every wheelbase. -/
theorem setCommandSpeed_zero (b : ℚ) : setCommandSpeed b 0 0 = 0 := by
  unfold setCommandSpeed truncToZero
  norm_num

/-- A zero motion request encodes to radius 0. -/
theorem setCommandRadius_zero : setCommandRadius 0 0 = 0 := by
  unfold setCommandRadius
  norm_num

/-! ### Frame dispatcher and observer signals -/

/-- Modelled from the spec: the numeric header ids of `kobuki_comms::Header`
(declared outside this source file). Per spec §3 the recognised set in its
listed order is `default (0x01)`, `ir`, `dock_ir`, `inertia`, `cliff`,
`current`, `magnet`, `time`, `hw`, `fw`, `st_gyro`, `eeprom`, `gp_input`;
scenario 6 fixes `dock_ir = 0x03`, so the ids are 1 through 13 in that
order. -/
def recognisedHeaders : List ℕ := [1, 2, 3, 4, 5, 6, 7, 8, 9, 10, 11, 12, 13]

/-- The dispatch loop of `Kobuki::runnable` (kobuki.cpp lines 203-267) on the
payload (the buffer after the three `pop_front`s): while more than one byte
(the ETX residue) remains, switch on the leading header id; a recognised id
is inserted into `sig_index` and its sub-record is consumed (modelled from
the spec: each `deserialise` consumes `2 + SUBLEN` bytes, the decoders
themselves being outside this source file); an unrecognised id clears the
remaining buffer — without touching `sig_index`. The `Bool` records whether
the unknown-header path was taken. Fuel-structured so that one unit of fuel
funds one loop iteration; `dispatch` supplies `payload.length` units, enough
because every iteration consumes at least two bytes or ends the loop. -/
def dispatchAux : ℕ → List ℕ → Finset ℕ → Bool → List ℕ × Finset ℕ × Bool
  | 0, buffer, seen, malformed => (buffer, seen, malformed)
  | fuel + 1, buffer, seen, malformed =>
    if 1 < buffer.length then
      if buffer.headD 0 ∈ recognisedHeaders then
        dispatchAux fuel (buffer.drop (2 + buffer.getD 1 0))
          (insert (buffer.headD 0) seen) malformed
      else ([], seen, true)
    else (buffer, seen, malformed)

/-- `dispatch(payload)`: run the dispatch loop on a fresh `sig_index`. -/
def dispatch (payload : List ℕ) : List ℕ × Finset ℕ × Bool :=
  dispatchAux payload.length payload ∅ false

/-- The observer signals emitted by `Kobuki::runnable` (kobuki.cpp lines
274-328), one constructor per `sig_*.emit()` call site. -/
inductive Signal where
  | sensor_data
  | joint_state
  | ir
  | dock_ir
  | inertia
  | cliff
  | current
  | magnet
  | time
  | hw
  | fw
  | st_gyro
  | eeprom
  | gp_input
deriving DecidableEq

/-- The header id a signal is emitted for (`joint_state` is emitted inside
the `header_default` case, so it carries id 1). -/
def sigId : Signal → ℕ
  | .sensor_data => 1
  | .joint_state => 1
  | .ir => 2
  | .dock_ir => 3
  | .inertia => 4
  | .cliff => 5
  | .current => 6
  | .magnet => 7
  | .time => 8
  | .hw => 9
  | .fw => 10
  | .st_gyro => 11
  | .eeprom => 12
  | .gp_input => 13

/-- The emissions of one arm of the notification switch (kobuki.cpp lines
279-325): the `header_default` arm emits `sig_sensor_data` then
`sig_wheel_state` (the joint-state signal); every other recognised arm emits
its single signal; the default arm emits nothing. Header id numbering is
modelled from the spec as in `recognisedHeaders`. -/
def emitForId : ℕ → List Signal
  | 1 => [.sensor_data, .joint_state]
  | 2 => [.ir]
  | 3 => [.dock_ir]
  | 4 => [.inertia]
  | 5 => [.cliff]
  | 6 => [.current]
  | 7 => [.magnet]
  | 8 => [.time]
  | 9 => [.hw]
  | 10 => [.fw]
  | 11 => [.st_gyro]
  | 12 => [.eeprom]
  | 13 => [.gp_input]
  | _ => []

/-- The full notification pass over `sig_index`: `std::set<unsigned char>`
iterates in ascending key order, so the pass is a bind of `emitForId` over
the ascending sort of the seen set. -/
def emitSignals (seen : Finset ℕ) : List Signal :=
  (seen.sort (· ≤ ·)).flatMap emitForId

/-! ### Odometry -/

/-- The fields of the `default` sub-record consumed by
`Kobuki::updateOdometry` (16-bit raw values). -/
structure SensorData where
  time_stamp : ℕ
  left_encoder : ℕ
  right_encoder : ℕ

/-- The odometry state mutated by `Kobuki::updateOdometry` (members of
`Kobuki` plus the function-local statics `init_l`, `init_r`). -/
structure OdomState where
  init_l : Bool
  init_r : Bool
  last_tick_left : ℕ
  last_tick_right : ℕ
  last_rad_left : ℚ
  last_rad_right : ℚ
  last_mm_left : ℚ
  last_mm_right : ℚ
  last_timestamp : ℕ
  last_diff_time : ℚ
  last_velocity_left : ℚ
  last_velocity_right : ℚ

/-- The out-parameters of `Kobuki::updateOdometry` that the claims cover
(the pose update delegates to `ecl::DifferentialDrive::Kinematics`, outside
this source file, and no claim depends on it). -/
structure OdomOutput where
  wheel_left_position : ℚ
  wheel_left_velocity : ℚ
  wheel_right_position : ℚ
  wheel_right_velocity : ℚ

/-- The wrap-safe tick difference `(short)((curr - last) & 0xffff)` computed
by `Kobuki::updateOdometry` (kobuki.cpp lines 445 and 456): subtraction of
the two zero-extended 16-bit counters, reduction to the low 16 bits, then
signed reinterpretation. -/
def tickDiff (curr last : ℕ) : ℤ := toSigned16 ((curr : ℤ) - (last : ℤ))

/-- `Kobuki::updateOdometry` (kobuki.cpp lines 427-482): first sample per
wheel seeds `last_tick_*` so its delta is zero; every call accumulates
`last_rad_*`/`last_mm_*` by the wrap-safe delta; wheel velocities are
recomputed only when the device timestamp changed, else reported as zero
while the stored `last_velocity_*`, `last_diff_time` and `last_timestamp`
are left untouched. -/
def updateOdometry (tick_to_rad tick_to_mm : ℚ) (s : OdomState) (d : SensorData) :
    OdomState × OdomOutput :=
  let base_tick_left := if s.init_l then s.last_tick_left else d.left_encoder
  let left_diff_ticks : ℚ := (tickDiff d.left_encoder base_tick_left : ℚ)
  let rad_left := s.last_rad_left + tick_to_rad * left_diff_ticks
  let mm_left := s.last_mm_left + tick_to_mm / 1000 * left_diff_ticks
  let base_tick_right := if s.init_r then s.last_tick_right else d.right_encoder
  let right_diff_ticks : ℚ := (tickDiff d.right_encoder base_tick_right : ℚ)
  let rad_right := s.last_rad_right + tick_to_rad * right_diff_ticks
  let mm_right := s.last_mm_right + tick_to_mm / 1000 * right_diff_ticks
  if d.time_stamp ≠ s.last_timestamp then
    let dt := (toSigned16 ((d.time_stamp : ℤ) - (s.last_timestamp : ℤ)) : ℚ) / 1000
    let vl := tick_to_rad * left_diff_ticks / dt
    let vr := tick_to_rad * right_diff_ticks / dt
    ({ s with init_l := true, init_r := true,
              last_tick_left := d.left_encoder, last_tick_right := d.right_encoder,
              last_rad_left := rad_left, last_rad_right := rad_right,
              last_mm_left := mm_left, last_mm_right := mm_right,
              last_timestamp := d.time_stamp, last_diff_time := dt,
              last_velocity_left := vl, last_velocity_right := vr },
     { wheel_left_position := rad_left, wheel_left_velocity := vl,
       wheel_right_position := rad_right, wheel_right_velocity := vr })
  else
    ({ s with init_l := true, init_r := true,
              last_tick_left := d.left_encoder, last_tick_right := d.right_encoder,
              last_rad_left := rad_left, last_rad_right := rad_right,
              last_mm_left := mm_left, last_mm_right := mm_right },
     { wheel_left_position := rad_left, wheel_left_velocity := 0,
       wheel_right_position := rad_right, wheel_right_velocity := 0 })

/-! ### Joint-state accessor and driver lifecycle -/

/-- The joint-state record filled by `Kobuki::getJointState`. -/
structure JointState where
  position : ℚ
  velocity : ℚ
  enabled : Bool
deriving DecidableEq

/-- `Kobuki::getJointState` (kobuki.cpp lines 484-543): the name
`"wheel_left"` selects the left wheel's accumulated position and velocity,
every other name falls into the `else // wheel_right` branch; `enabled` is
the conjunction of the three lifecycle flags. -/
def getJointState (name : String) (s : OdomState)
    (is_connected is_running is_enabled : Bool) : JointState :=
  if name = "wheel_left" then
    { position := s.last_rad_left, velocity := s.last_velocity_left,
      enabled := is_connected && is_running && is_enabled }
  else
    { position := s.last_rad_right, velocity := s.last_velocity_right,
      enabled := is_connected && is_running && is_enabled }

/-- The driver-side command state touched by `Kobuki::stop` (kobuki.cpp
lines 647-654): the stored `(speed, radius)` pair, the lifecycle flags, and
the log of frames written to the serial port (most recent last). -/
structure DriverState where
  speed : ℤ
  radius : ℤ
  bias : ℚ
  is_enabled : Bool
  is_running : Bool
  sent : List (List ℕ)
deriving DecidableEq

/-- `Kobuki::setCommand(vx, wz)` acting on the driver state. -/
def setCommandDriver (vx wz : ℚ) (s : DriverState) : DriverState :=
  { s with radius := setCommandRadius vx wz,
           speed := setCommandSpeed s.bias vx wz }

/-- `Kobuki::sendCommand()` acting on the driver state: writes the current
motion frame to the serial port. -/
def sendCommandDriver (s : DriverState) : DriverState :=
  { s with sent := s.sent ++ [sendCommandFrame s.speed s.radius] }

/-- `Kobuki::stop` (kobuki.cpp lines 647-654): `setCommand(0, 0)`, then
`sendCommand()`, then `is_enabled = false`; the `is_running = false`
assignment in the source is commented out. -/
def stopDriver (s : DriverState) : DriverState :=
  let s1 := sendCommandDriver (setCommandDriver 0 0 s)
  { s1 with is_enabled := false }

/-! ### Concrete sample states used by witnesses -/

/-- A steady-state odometry state: both wheels initialised, left counter just
below the 16-bit wrap boundary. -/
def odomExample : OdomState :=
  { init_l := true, init_r := true,
    last_tick_left := 65530, last_tick_right := 100,
    last_rad_left := 2, last_rad_right := 3,
    last_mm_left := 0, last_mm_right := 0,
    last_timestamp := 500, last_diff_time := 1 / 100,
    last_velocity_left := 5, last_velocity_right := 6 }

/-- A sensor record repeating `odomExample`'s timestamp, with the left
counter wrapped past 65535. -/
def sensorExample : SensorData :=
  { time_stamp := 500, left_encoder := 5, right_encoder := 103 }

/-- A running, enabled driver about to be stopped. -/
def driverExample : DriverState :=
  { speed := 40, radius := 7, bias := 298 / 1000,
    is_enabled := true, is_running := true, sent := [] }

/-! ### Claim C1 -/

/-- C1: `sendCommand()` does write the 9-byte frame `AA 55 05 01 s0 s1 r0 r1
CKS` with little-endian speed and radius bytes, but the checksum byte it
stores XORs only bytes 2 through 6 (loop bound `i <= 6`), omitting byte 7.
At speed 0 and radius -1 the frame is `AA 55 05 01 00 00 FF FF FB`: the
written checksum 0xFB differs from 0x04, the XOR of bytes 2 through 7 that
the claim (and validity under `PacketFinder::checkSum`) requires. -/
theorem sendCommand_checksum_omits_byte7 :
    sendCommandFrame 0 (-1) = [0xaa, 0x55, 5, 1, 0, 0, 0xff, 0xff, 0xfb] ∧
    xorBytes (((sendCommandFrame 0 (-1)).drop 2).take 6) = 4 ∧
    (sendCommandFrame 0 (-1)).getD 8 0 ≠
      xorBytes (((sendCommandFrame 0 (-1)).drop 2).take 6) := by
  refine ⟨by decide, by decide, by decide⟩

/-! ### Claim C2 -/

/-- C2 counterexample: `setCommand(0.0, +0.5)` stores speed 74, not 75 — the
C `(short)` cast truncates `1000 · 0.298 · 0.5 / 2 = 74.5` toward zero — so
byte 4 of the emitted frame is 0x4A, not 0x4B as claimed. -/
theorem spin_speed_counterexample :
    setCommandSpeed biasValue 0 (1 / 2) = 74 ∧ (74 : ℤ) ≠ 75 ∧
    (sendCommandFrame (setCommandSpeed biasValue 0 (1 / 2))
      (setCommandRadius 0 (1 / 2))).getD 4 0 = 0x4a ∧
    (0x4a : ℕ) ≠ 0x4b := by
  have hs : setCommandSpeed biasValue 0 (1 / 2) = 74 := by
    unfold biasValue setCommandSpeed truncToZero
    norm_num
  have hr : setCommandRadius 0 (1 / 2) = 1 := by
    unfold setCommandRadius
    norm_num
  refine ⟨hs, by decide, ?_, by decide⟩
  rw [hs, hr]
  decide

/-- C2 amended: `setCommand(0.0, +0.5)` yields radius 1 and speed 74 = the
truncation toward zero of `1000 · 0.298 · 0.5 / 2 = 74.5`; the emitted
frame has bytes 4-5 = `0x4A 0x00`, bytes 6-7 = `0x01 0x00`, and byte 8 is
the XOR of bytes 2 through 7 (which here coincides with the code's XOR of
bytes 2 through 6 since byte 7 is zero); in general the stored speed is the
truncation toward zero of `1000 · max(vx + bias·wz/2, vx − bias·wz/2)`. -/
theorem spin_encoding_amended :
    setCommandRadius 0 (1 / 2) = 1 ∧
    setCommandSpeed biasValue 0 (1 / 2) = 74 ∧
    sendCommandFrame 74 1 = [0xaa, 0x55, 5, 1, 0x4a, 0, 1, 0, 0x4f] ∧
    (sendCommandFrame 74 1).getD 8 0 =
      xorBytes (((sendCommandFrame 74 1).drop 2).take 6) ∧
    (∀ b vx wz : ℚ, setCommandSpeed b vx wz =
      (1000 * max (vx + b * wz / 2) (vx - b * wz / 2)).num.tdiv
        (1000 * max (vx + b * wz / 2) (vx - b * wz / 2)).den) := by
  refine ⟨?_, ?_, by decide, by decide, fun b vx wz => truncToZero_eq_tdiv _⟩
  · unfold setCommandRadius
    norm_num
  · unfold biasValue setCommandSpeed truncToZero
    norm_num

/-! ### Claim C3 -/

/-- C3 counterexample: at `vx = 0.0007`, `wz = 1.0` the code stores radius
`(short)(0.7) = 0`, while the claim's `round(vx · 1000 / wz) = round(0.7)`
is 1. -/
theorem radius_round_counterexample :
    setCommandRadius (7 / 10000) 1 = 0 ∧
    round ((7 / 10000 : ℚ) * 1000 / 1) = 1 := by
  constructor
  · unfold setCommandRadius truncToZero
    norm_num
  · norm_num [round_eq]

/-- C3 amended: the sentinel cases are as claimed, but the generic case
truncates `vx · 1000 / wz` toward zero (T-division of the reduced fraction)
rather than rounding to the nearest integer. -/
theorem radius_truncation_amended (vx wz : ℚ) :
    setCommandRadius vx wz =
      if wz = 0 then 0
      else if vx = 0 ∧ 0 < wz then 1
      else if vx = 0 ∧ wz < 0 then -1
      else (vx * 1000 / wz).num.tdiv (vx * 1000 / wz).den := by
  unfold setCommandRadius
  split_ifs <;> first | rfl | exact truncToZero_eq_tdiv _

/-! ### Claim C8 -/

/-- C8 counterexample: `stop()` does not set `is_running` to false (that
assignment is commented out in the source); on a running driver the flag is
still true after `stop()`, while `is_enabled` is what gets cleared. -/
theorem stop_keeps_is_running_counterexample :
    (stopDriver driverExample).is_running = true ∧
    (stopDriver driverExample).is_enabled = false :=
  ⟨rfl, rfl⟩

/-- C8 amended: `stop()` clears `is_enabled` (leaving `is_running`
unchanged), sends exactly one zero-motion frame (speed 0, radius 0), and is
idempotent on the driver state: a second call changes nothing except
appending one more identical zero-motion frame to the serial log. -/
theorem stop_behaviour_amended (s : DriverState) :
    (stopDriver s).is_enabled = false ∧
    (stopDriver s).is_running = s.is_running ∧
    (stopDriver s).speed = 0 ∧
    (stopDriver s).radius = 0 ∧
    (stopDriver s).sent = s.sent ++ [sendCommandFrame 0 0] ∧
    sendCommandFrame 0 0 = [0xaa, 0x55, 5, 1, 0, 0, 0, 0, 4] ∧
    stopDriver (stopDriver s) =
      { stopDriver s with sent := (stopDriver s).sent ++ [sendCommandFrame 0 0] } := by
  refine ⟨rfl, rfl, ?_, ?_, ?_, by decide, ?_⟩ <;>
    simp [stopDriver, sendCommandDriver, setCommandDriver,
      setCommandSpeed_zero, setCommandRadius_zero]

/-! ### Claim C9 -/

/-- C9: the encode-then-parse round trip fails the checksum test: because
`sendCommand()` XORs only bytes 2 through 6 into the checksum byte, the
frame for speed 0, radius -1 has a nonzero XOR over LEN..CKS and is rejected
by `PacketFinder::checkSum`, while the zero-motion frame (radius high byte
zero) passes; the emitted frame is always 9 bytes. -/
theorem roundtrip_checksum_fails :
    checkSum (sendCommandFrame 0 (-1)) = false ∧
    checkSum (sendCommandFrame 0 0) = true ∧
    ∀ speed radius : ℤ, (sendCommandFrame speed radius).length = 9 := by
  refine ⟨by decide, by decide, fun s r => rfl⟩

/-! ### Claim C10 -/

/-- C10: `getJointState` returns the left wheel's accumulated position and
velocity exactly when the queried name is `"wheel_left"`; every other name
falls through to the right wheel's data. -/
theorem getJointState_name_selection (name : String) (s : OdomState)
    (c r e : Bool) :
    (name = "wheel_left" →
      getJointState name s c r e =
        { position := s.last_rad_left, velocity := s.last_velocity_left,
          enabled := c && r && e }) ∧
    (name ≠ "wheel_left" →
      getJointState name s c r e =
        { position := s.last_rad_right, velocity := s.last_velocity_right,
          enabled := c && r && e }) := by
  constructor <;> intro h <;> simp [getJointState, h]

/-- C10 witness: the name `"wheel_right_typo"` is not `"wheel_left"` and
selects the right wheel's data. -/
theorem getJointState_name_selection_witness :
    ("wheel_right_typo" : String) ≠ "wheel_left" ∧
    getJointState "wheel_right_typo" odomExample true true false =
      { position := odomExample.last_rad_right,
        velocity := odomExample.last_velocity_right,
        enabled := true && true && false } :=
  ⟨by decide,
   (getJointState_name_selection "wheel_right_typo" odomExample true true false).2
     (by decide)⟩

/-! ### Claim C4 -/

/-- C4: the odometry tick delta is the mod-2^16 difference of the two
16-bit samples reinterpreted as a signed 16-bit integer: it is congruent to
`c - p` modulo 2^16 and lies in `[-32768, 32768)`; concretely
`tickDiff 5 65530 = 11`, and an update from stored tick 65530 to current
tick 5 raises `last_rad_left` by exactly `11 · tick_to_rad`. -/
theorem tick_delta_wrap (c p : ℕ) (_hc : c < 65536) (_hp : p < 65536)
    (ttr ttm : ℚ) (s : OdomState) (d : SensorData)
    (hs1 : s.init_l = true) (hs2 : s.last_tick_left = 65530)
    (hd : d.left_encoder = 5) :
    tickDiff c p % 65536 = ((c : ℤ) - p) % 65536 ∧
    -32768 ≤ tickDiff c p ∧ tickDiff c p < 32768 ∧
    tickDiff 5 65530 = 11 ∧
    (updateOdometry ttr ttm s d).1.last_rad_left = s.last_rad_left + ttr * 11 := by
  have ht : tickDiff 5 65530 = 11 := by decide
  refine ⟨?_, ?_, ?_, ht, ?_⟩
  · unfold tickDiff toSigned16
    split <;> omega
  · unfold tickDiff toSigned16
    split <;> omega
  · unfold tickDiff toSigned16
    split <;> omega
  · unfold updateOdometry
    rw [hs1, hs2, hd]
    split
    · split <;> split <;> simp [ht]
    · next h => exact absurd rfl h

/-- C4 witness: the theorem instantiated at the wrap boundary, with the
sample odometry state (stored tick 65530) and sensor record (current tick
5). -/
theorem tick_delta_wrap_witness :
    (5 : ℕ) < 65536 ∧ (65530 : ℕ) < 65536 ∧
    odomExample.init_l = true ∧ odomExample.last_tick_left = 65530 ∧
    sensorExample.left_encoder = 5 ∧
    (tickDiff 5 65530 % 65536 = ((5 : ℤ) - 65530) % 65536 ∧
     -32768 ≤ tickDiff 5 65530 ∧ tickDiff 5 65530 < 32768 ∧
     tickDiff 5 65530 = 11 ∧
     (updateOdometry 2 3 odomExample sensorExample).1.last_rad_left =
       odomExample.last_rad_left + 2 * 11) :=
  ⟨by decide, by decide, rfl, rfl, rfl,
   tick_delta_wrap 5 65530 (by decide) (by decide) 2 3 odomExample sensorExample
     rfl rfl rfl⟩

/-! ### Claim C6 -/

/-- C6: when the device timestamp repeats, the reported wheel velocities are
zero while the accumulated positions are still advanced by the tick deltas
and reported; when it changes, the reported velocity is
`tick_to_rad · delta_ticks / dt` with
`dt = signed_wrap16(curr − last) / 1000` seconds. -/
theorem updateOdometry_velocity_rule (ttr ttm : ℚ) (s : OdomState)
    (d : SensorData) (hl : s.init_l = true) (hr : s.init_r = true) :
    (d.time_stamp = s.last_timestamp →
      (updateOdometry ttr ttm s d).2.wheel_left_velocity = 0 ∧
      (updateOdometry ttr ttm s d).2.wheel_right_velocity = 0 ∧
      (updateOdometry ttr ttm s d).2.wheel_left_position =
        s.last_rad_left + ttr * (tickDiff d.left_encoder s.last_tick_left : ℚ) ∧
      (updateOdometry ttr ttm s d).2.wheel_right_position =
        s.last_rad_right + ttr * (tickDiff d.right_encoder s.last_tick_right : ℚ) ∧
      (updateOdometry ttr ttm s d).1.last_rad_left =
        s.last_rad_left + ttr * (tickDiff d.left_encoder s.last_tick_left : ℚ) ∧
      (updateOdometry ttr ttm s d).1.last_rad_right =
        s.last_rad_right + ttr * (tickDiff d.right_encoder s.last_tick_right : ℚ)) ∧
    (d.time_stamp ≠ s.last_timestamp →
      (updateOdometry ttr ttm s d).2.wheel_left_velocity =
        ttr * (tickDiff d.left_encoder s.last_tick_left : ℚ) /
          ((toSigned16 ((d.time_stamp : ℤ) - (s.last_timestamp : ℤ)) : ℚ) / 1000) ∧
      (updateOdometry ttr ttm s d).2.wheel_right_velocity =
        ttr * (tickDiff d.right_encoder s.last_tick_right : ℚ) /
          ((toSigned16 ((d.time_stamp : ℤ) - (s.last_timestamp : ℤ)) : ℚ) / 1000)) := by
  unfold updateOdometry
  rw [hl, hr]
  constructor
  · intro h
    rw [if_neg (not_not_intro h)]
    simp
  · intro h
    rw [if_pos h]
    simp

/-- C6 witness: with the sample state and a sensor record carrying the same
timestamp (500), the velocities report zero while both positions advance by
their tick deltas. -/
theorem updateOdometry_velocity_rule_witness :
    odomExample.init_l = true ∧ odomExample.init_r = true ∧
    sensorExample.time_stamp = odomExample.last_timestamp ∧
    ((updateOdometry 2 3 odomExample sensorExample).2.wheel_left_velocity = 0 ∧
     (updateOdometry 2 3 odomExample sensorExample).2.wheel_right_velocity = 0 ∧
     (updateOdometry 2 3 odomExample sensorExample).2.wheel_left_position =
       odomExample.last_rad_left +
         2 * (tickDiff sensorExample.left_encoder odomExample.last_tick_left : ℚ) ∧
     (updateOdometry 2 3 odomExample sensorExample).2.wheel_right_position =
       odomExample.last_rad_right +
         2 * (tickDiff sensorExample.right_encoder odomExample.last_tick_right : ℚ) ∧
     (updateOdometry 2 3 odomExample sensorExample).1.last_rad_left =
       odomExample.last_rad_left +
         2 * (tickDiff sensorExample.left_encoder odomExample.last_tick_left : ℚ) ∧
     (updateOdometry 2 3 odomExample sensorExample).1.last_rad_right =
       odomExample.last_rad_right +
         2 * (tickDiff sensorExample.right_encoder odomExample.last_tick_right : ℚ)) :=
  ⟨rfl, rfl, rfl,
   (updateOdometry_velocity_rule 2 3 odomExample sensorExample rfl rfl).1 rfl⟩

/-! ### Claim C5 -/

/-- Every signal of a seen id occurs in the notification pass over that
seen set. -/
theorem emitForId_subset_emitSignals {seen : Finset ℕ} {id : ℕ}
    (hid : id ∈ seen) {sg : Signal} (hsg : sg ∈ emitForId id) :
    sg ∈ emitSignals seen := by
  unfold emitSignals
  exact List.mem_flatMap.mpr ⟨id, (Finset.mem_sort _).mpr hid, hsg⟩

/-- C5 amended: an unrecognised header id makes the dispatch loop clear the
remaining payload and flag the frame as malformed, but `sig_index` is not
cleared: the ids already decoded in that frame stay in the seen set and
their observer signals are still emitted by the notification pass. -/
theorem dispatch_unknown_header_behaviour (fuel : ℕ) (buffer : List ℕ)
    (seen : Finset ℕ) (m : Bool) (hlen : 1 < buffer.length)
    (hhdr : buffer.headD 0 ∉ recognisedHeaders) (hfuel : 0 < fuel) :
    dispatchAux fuel buffer seen m = ([], seen, true) ∧
    ∀ id ∈ seen, ∀ sg ∈ emitForId id, sg ∈ emitSignals seen := by
  constructor
  · cases fuel with
    | zero => omega
    | succ n =>
      simp only [dispatchAux]
      rw [if_pos hlen, if_neg hhdr]
  · intro id hid sg hsg
    exact emitForId_subset_emitSignals hid hsg

/-- C5 witness: a buffer headed by the unrecognised id 238, reached with id
1 already seen. -/
theorem dispatch_unknown_header_behaviour_witness :
    1 < ([238, 5, 9] : List ℕ).length ∧
    ([238, 5, 9] : List ℕ).headD 0 ∉ recognisedHeaders ∧
    (0 : ℕ) < 3 ∧
    (dispatchAux 3 [238, 5, 9] {1} false = ([], {1}, true) ∧
     ∀ id ∈ ({1} : Finset ℕ), ∀ sg ∈ emitForId id, sg ∈ emitSignals {1}) :=
  ⟨by decide, by decide, by decide,
   dispatch_unknown_header_behaviour 3 [238, 5, 9] {1} false
     (by decide) (by decide) (by decide)⟩

/-- C5 counterexample: dispatching the payload
`[01 02 00 00 EE 05 09]` (a well-formed `default` sub-record followed by the
unrecognised header 0xEE) clears the remainder and reports the malformed
frame, but the seen set still holds id 1 and the notification pass still
emits `sensor_data` for it — observer signals for ids seen earlier in the
frame are NOT suppressed, contrary to the claim. -/
theorem dispatch_seen_not_abandoned_counterexample :
    (dispatch [1, 2, 0, 0, 238, 5, 9]).1 = [] ∧
    (dispatch [1, 2, 0, 0, 238, 5, 9]).2.1 = {1} ∧
    (dispatch [1, 2, 0, 0, 238, 5, 9]).2.2 = true ∧
    Signal.sensor_data ∈ emitSignals (dispatch [1, 2, 0, 0, 238, 5, 9]).2.1 := by
  have h : (dispatch [1, 2, 0, 0, 238, 5, 9]).2.1 = {1} := by decide
  refine ⟨by decide, h, by decide, ?_⟩
  rw [h]
  unfold emitSignals
  rw [Finset.sort_singleton]
  decide

/-! ### Claim C7 -/

/-- Every recognised header id is at least 1. -/
theorem one_le_of_recognised {x : ℕ} (h : x ∈ recognisedHeaders) : 1 ≤ x := by
  simp only [recognisedHeaders, List.mem_cons, List.not_mem_nil, or_false] at h
  omega

/-- On recognised ids, every emitted signal carries the id of the switch arm
it was emitted from. -/
theorem sigId_emitForId {id : ℕ} (h : id ∈ recognisedHeaders) :
    ∀ sg ∈ emitForId id, sigId sg = id := by
  simp only [recognisedHeaders, List.mem_cons, List.not_mem_nil, or_false] at h
  rcases h with rfl | rfl | rfl | rfl | rfl | rfl | rfl | rfl | rfl | rfl | rfl | rfl | rfl <;>
    decide

/-- Each switch arm emits an id-homogeneous block, so its id image is
sorted. -/
theorem emitForId_map_sorted (a : ℕ) :
    ((emitForId a).map sigId).Sorted (· ≤ ·) := by
  match a with
  | 0 => decide
  | 1 => decide
  | 2 => decide
  | 3 => decide
  | 4 => decide
  | 5 => decide
  | 6 => decide
  | 7 => decide
  | 8 => decide
  | 9 => decide
  | 10 => decide
  | 11 => decide
  | 12 => decide
  | 13 => decide
  | (n + 14) => exact List.sorted_nil

/-- `sensor_data` is emitted only by the `header_default` arm. -/
theorem sensor_data_only_default {a : ℕ} (h : a ≠ 1) :
    Signal.sensor_data ∉ emitForId a := by
  match a with
  | 0 => decide
  | 1 => exact absurd rfl h
  | 2 => decide
  | 3 => decide
  | 4 => decide
  | 5 => decide
  | 6 => decide
  | 7 => decide
  | 8 => decide
  | 9 => decide
  | 10 => decide
  | 11 => decide
  | 12 => decide
  | 13 => decide
  | (n + 14) => exact List.not_mem_nil _

/-- The id image of the notification pass over a sorted id list of
recognised ids is itself sorted. -/
theorem sorted_flatMap_emit (l : List ℕ) (hl : l.Sorted (· ≤ ·))
    (hrec : ∀ x ∈ l, x ∈ recognisedHeaders) :
    ((l.flatMap emitForId).map sigId).Sorted (· ≤ ·) := by
  induction l with
  | nil => simp
  | cons a t ih =>
    rw [List.flatMap_cons, List.map_append]
    rcases List.sorted_cons.mp hl with ⟨hat, ht⟩
    refine List.pairwise_append.mpr
      ⟨emitForId_map_sorted a,
       ih ht (fun x hx => hrec x (List.mem_cons_of_mem _ hx)), ?_⟩
    intro x hx y hy
    rcases List.mem_map.mp hx with ⟨sg, hsg, rfl⟩
    rcases List.mem_map.mp hy with ⟨sg', hsg', rfl⟩
    rcases List.mem_flatMap.mp hsg' with ⟨b, hb, hsgb⟩
    rw [sigId_emitForId (hrec a (List.mem_cons_self a t)) sg hsg,
      sigId_emitForId (hrec b (List.mem_cons_of_mem _ hb)) sg' hsgb]
    exact hat b hb

/-- A sorted list of ids that are all at least 1 and that contains 1 starts
with 1. -/
theorem head_of_sorted_mem_one (l : List ℕ) (hl : l.Sorted (· ≤ ·))
    (h1 : 1 ∈ l) (hpos : ∀ x ∈ l, 1 ≤ x) : ∃ t, l = 1 :: t := by
  cases l with
  | nil => cases h1
  | cons a t =>
    have ha : a = 1 := by
      rcases List.mem_cons.mp h1 with h | h
      · omega
      · have h2 := (List.sorted_cons.mp hl).1 1 h
        have h3 := hpos a (List.mem_cons_self a t)
        omega
    exact ⟨t, by rw [ha]⟩

/-- Adjacency of `sensor_data` and `joint_state` is preserved by
concatenation (a `sensor_data` is never the last element of a block that
satisfies the adjacency property). -/
theorem adj_append {l₁ l₂ : List Signal}
    (h₁ : ∀ n, l₁[n]? = some Signal.sensor_data →
      l₁[n + 1]? = some Signal.joint_state)
    (h₂ : ∀ n, l₂[n]? = some Signal.sensor_data →
      l₂[n + 1]? = some Signal.joint_state) :
    ∀ n, (l₁ ++ l₂)[n]? = some Signal.sensor_data →
      (l₁ ++ l₂)[n + 1]? = some Signal.joint_state := by
  intro n hn
  by_cases h : n < l₁.length
  · rw [List.getElem?_append_left h] at hn
    have hj := h₁ n hn
    have hlt : n + 1 < l₁.length := (List.getElem?_eq_some_iff.mp hj).1
    rw [List.getElem?_append_left hlt]
    exact hj
  · push_neg at h
    rw [List.getElem?_append_right h] at hn
    have hj := h₂ (n - l₁.length) hn
    rw [List.getElem?_append_right (by omega)]
    have heq : n + 1 - l₁.length = n - l₁.length + 1 := by omega
    rw [heq]
    exact hj

/-- Within a single switch arm, `joint_state` immediately follows
`sensor_data`. -/
theorem adj_emitForId (a : ℕ) :
    ∀ n, (emitForId a)[n]? = some Signal.sensor_data →
      (emitForId a)[n + 1]? = some Signal.joint_state := by
  by_cases h : a = 1
  · subst h
    intro n hn
    match n with
    | 0 => rfl
    | 1 => simp [emitForId] at hn
    | (k + 2) => simp [emitForId] at hn
  · intro n hn
    exact absurd (List.getElem?_mem hn) (sensor_data_only_default h)

/-- Across the whole notification pass, `joint_state` immediately follows
`sensor_data`. -/
theorem adj_flatMap_emit (l : List ℕ) :
    ∀ n, (l.flatMap emitForId)[n]? = some Signal.sensor_data →
      (l.flatMap emitForId)[n + 1]? = some Signal.joint_state := by
  induction l with
  | nil =>
    intro n hn
    simp at hn
  | cons a t ih =>
    rw [List.flatMap_cons]
    exact adj_append (adj_emitForId a) ih

/-- C7: for every seen set of recognised header ids the observer signals are
emitted in ascending header-id order; when the default id 1 is present its
`sensor_data` signal comes first (so before every non-default id), and the
`joint_state` signal is emitted immediately after `sensor_data`. -/
theorem emission_order (seen : Finset ℕ)
    (hrec : ∀ x ∈ seen, x ∈ recognisedHeaders) :
    ((emitSignals seen).map sigId).Sorted (· ≤ ·) ∧
    (1 ∈ seen → (emitSignals seen).head? = some Signal.sensor_data) ∧
    (∀ n, (emitSignals seen)[n]? = some Signal.sensor_data →
      (emitSignals seen)[n + 1]? = some Signal.joint_state) := by
  refine ⟨?_, ?_, adj_flatMap_emit _⟩
  · exact sorted_flatMap_emit _ (Finset.sort_sorted _ _)
      (fun x hx => hrec x ((Finset.mem_sort _).mp hx))
  · intro h1
    obtain ⟨t, ht⟩ := head_of_sorted_mem_one (seen.sort (· ≤ ·))
      (Finset.sort_sorted _ _) ((Finset.mem_sort _).mpr h1)
      (fun x hx => one_le_of_recognised (hrec x ((Finset.mem_sort _).mp hx)))
    unfold emitSignals
    rw [ht, List.flatMap_cons]
    rfl

/-- C7 witness: the seen set `{1, 3}` (scenario 6: `default` and `dock_ir`)
satisfies all three ordering properties. -/
theorem emission_order_witness :
    (∀ x ∈ ({1, 3} : Finset ℕ), x ∈ recognisedHeaders) ∧
    ((emitSignals {1, 3}).map sigId).Sorted (· ≤ ·) ∧
    ((emitSignals {1, 3}).head? = some Signal.sensor_data) ∧
    (∀ n, (emitSignals {1, 3})[n]? = some Signal.sensor_data →
      (emitSignals {1, 3})[n + 1]? = some Signal.joint_state) := by
  have h := emission_order {1, 3} (by decide)
  exact ⟨by decide, h.1, h.2.1 (by decide), h.2.2⟩

end KobukiSpec
